import Mathlib

/-!
Verification of the folder-structure / Excel-sheet viewer (`src/__main__.py`).

The program has three parts that the claims speak about:

* `get_folder_structure` / its inner `build_structure`: a recursive scan of a
  root directory producing a nested dict from folder name to sub-dict
  (files ignored), raising `ValueError` when the root path does not exist;
* `FolderComboBox.populate_combobox` / its inner `traverse_structure`: a
  pre-order flattening of that nested dict into full paths, joining with
  `os.path.join`;
* `ExcelSheetSelector.check_and_display_excel_file`: lists a folder, filters
  names ending in `".xlsx"` and not starting with `"~$"`, and when exactly one
  remains opens it with `openpyxl.load_workbook(path, read_only=True)`, copies
  `workbook.sheetnames` into the sheet combobox, then calls `workbook.close()`;
  otherwise it sets a placeholder label and clears the sheet combobox.

Python dicts preserve insertion order, so a nested dict is embedded as a list
of (name, subtree) pairs.  The filesystem below a directory is a finite tree
of entries, so `os.scandir` at a directory is embedded by that directory's
list of child entries.  Python strings are sequences of characters, so
`str.endswith` / `str.startswith` are embedded as list suffix / prefix tests
on the character data.  Calls into Tk (configuring the label, assigning
combobox values, `current(0)`, `set("")`) and into `openpyxl` are external
collaborator calls that can raise, so they are supplied by an explicit
environment as `Except`-valued functions; a raised exception propagates,
carrying the widget state as mutated so far (Python objects keep mutations
made before the raise).  Workbook open/close calls are recorded in an event
trace so that handle release is observable.
-/

/-- A nested folder mapping, as built by `build_structure`: a Python dict from
folder name to sub-dict, embedded as an insertion-ordered association list. -/
inductive FolderTree where
  | node : List (String × FolderTree) → FolderTree

/-- A filesystem entry as seen by `os.scandir` / `os.listdir`: either a
directory (with the entries of the subtree below it) or a regular file. -/
inductive FSEntry where
  | dir : String → List FSEntry → FSEntry
  | file : String → FSEntry

/-- The `entry.name` attribute of an `os.scandir` entry. -/
def FSEntry.name : FSEntry → String
  | FSEntry.dir n _ => n
  | FSEntry.file n => n

/-- The `entry.is_dir()` test of an `os.scandir` entry. -/
def FSEntry.is_dir : FSEntry → Bool
  | FSEntry.dir _ _ => true
  | FSEntry.file _ => false

/-- Python `s.endswith(suffix)`: the characters of `suffix` are a suffix of the
characters of `s` (byte-for-byte, case-sensitive). -/
def str_endswith (s suffix : String) : Bool := suffix.data.isSuffixOf s.data

/-- Python `s.startswith(pre)`: the characters of `pre` are a prefix of the
characters of `s` (byte-for-byte, case-sensitive). -/
def str_startswith (s pre : String) : Bool := pre.data.isPrefixOf s.data

/-- `os.path.join(a, b)` for one extra component, with the host separator `sep`
made explicit: if `b` starts with the separator it replaces `a`; otherwise `b`
is appended to `a`, inserting the separator unless `a` is empty or already ends
with it.  (Drive-letter handling of the Windows variant is irrelevant here:
the joined components are folder names from `os.scandir`, never absolute.) -/
def osJoin (sep a b : String) : String :=
  if str_startswith b sep then b
  else if a = "" || str_endswith a sep then a ++ b
  else a ++ sep ++ b

mutual

/-- `traverse_structure(structure, parent_path)` from
`FolderComboBox.populate_combobox`: for each `(folder_name, sub_structure)` in
the mapping, in mapping order, emit `os.path.join(parent_path, folder_name)`
and then the flattening of the sub-mapping under that joined path. -/
def traverse_structure (sep : String) : FolderTree → String → List String
  | FolderTree.node entries, parent_path => traverse_entries sep entries parent_path

/-- The loop body of `traverse_structure` over the items of one mapping. -/
def traverse_entries (sep : String) : List (String × FolderTree) → String → List String
  | [], _ => []
  | (folder_name, sub_structure) :: rest, parent_path =>
    osJoin sep parent_path folder_name ::
      (traverse_structure sep sub_structure (osJoin sep parent_path folder_name) ++
        traverse_entries sep rest parent_path)

end

mutual

/-- Total number of directories in a `FolderTree` (the implicit root is not
counted, matching the spec's "root excluded"). -/
def FolderTree.total_dirs : FolderTree → Nat
  | FolderTree.node entries => total_dirs_entries entries

/-- Directory count of one level's association list, children included. -/
def total_dirs_entries : List (String × FolderTree) → Nat
  | [] => 0
  | (_, sub_structure) :: rest => 1 + FolderTree.total_dirs sub_structure + total_dirs_entries rest

end

/-- `build_structure(path)` from `get_folder_structure`, expressed on the
entry list that `os.scandir(path)` yields: entries that are directories are
recorded, each with the structure built from its own entries; regular files
are skipped. -/
def build_structure : List FSEntry → List (String × FolderTree)
  | [] => []
  | FSEntry.dir entry_name children :: rest =>
      (entry_name, FolderTree.node (build_structure children)) :: build_structure rest
  | FSEntry.file _ :: rest => build_structure rest

/-- The filesystem as the scanner sees it: whether a path exists
(`os.path.exists`) and the entry tree below a path (`os.scandir`, applied
recursively). -/
structure FileSystem where
  path_exists : String → Bool
  entries_at : String → List FSEntry

/-- `get_folder_structure(root_path)`: raises
`ValueError(f"指定されたパスが存在しません: \x7broot_path\x7d")` when the path does not
exist, else returns `build_structure(root_path)`.  The raised error is
embedded as `Except.error` carrying the formatted message. -/
def get_folder_structure (fs : FileSystem) (root_path : String) : Except String FolderTree :=
  if fs.path_exists root_path then
    Except.ok (FolderTree.node (build_structure (fs.entries_at root_path)))
  else
    Except.error ("指定されたパスが存在しません: " ++ root_path)

/-- `os.listdir(path)` returns the names of all entries of the directory,
directories and files alike (no file-type information). -/
def os_listdir (entries : List FSEntry) : List String := entries.map FSEntry.name

/-- The filter of the list comprehension in `check_and_display_excel_file`:
`f.endswith(".xlsx") and not f.startswith("~$")`. -/
def qualifying_excel_name (f : String) : Bool :=
  str_endswith f ".xlsx" && !(str_startswith f "~$")

/-- An `openpyxl` workbook handle: only its `sheetnames` attribute is used. -/
structure Workbook where
  sheetnames : List String
deriving DecidableEq

/-- The mutable state of an `ExcelSheetSelector`: the stored folder path
(`None` before `update_folder` ran), the text of `excel_file_label`, and the
values list and displayed text of `sheet_combobox`. -/
structure SelectorState where
  folder_path : Option String
  label_text : String
  sheet_values : List String
  sheet_text : String
deriving DecidableEq

/-- Workbook file-handle events, recorded when `openpyxl.load_workbook`
succeeds and when `workbook.close()` runs. -/
inductive FileEv where
  | opened : String → Bool → FileEv
  | closed : String → FileEv
deriving DecidableEq

/-- The external collaborators of `check_and_display_excel_file`: the path
separator used by `os.path.join`, `os.listdir`, `openpyxl.load_workbook`
(second argument is the `read_only` flag), and the Tk calls that update the
label and the sheet combobox.  Each call either succeeds or raises, which the
environment decides; `Except.error` carries the exception message. -/
structure SelectorEnv where
  sep : String
  listdir : String → Except String (List String)
  load_workbook : String → Bool → Except String Workbook
  set_label : String → Except String Unit
  set_values : List String → Except String Unit
  set_current : Nat → Except String Unit
  set_text : String → Except String Unit

/-- `ExcelSheetSelector.check_and_display_excel_file`, line by line.  Returns
the file-handle event trace together with either the final state or the
raised exception paired with the state as mutated up to the raise.  An early
`return` happens when the stored folder path is falsy (`None` or `""`).  When
the filter leaves exactly one name, the label is set first, then the workbook
is opened with `read_only=True`, `workbook.sheetnames` is assigned to the
combobox values, `current(0)` is called when the list is nonempty, and only
then `workbook.close()` runs; nothing guards the intermediate calls, so a
raise between open and close skips the close.  Otherwise the label becomes
the placeholder, the values list is cleared, and `set("")` clears the text. -/
def check_and_display_excel_file (env : SelectorEnv) (s : SelectorState) :
    List FileEv × Except (String × SelectorState) SelectorState :=
  match s.folder_path with
  | none => ([], Except.ok s)
  | some fp =>
    if fp = "" then ([], Except.ok s)
    else
      match env.listdir fp with
      | Except.error e => ([], Except.error (e, s))
      | Except.ok files =>
        match files.filter qualifying_excel_name with
        | [excel_file] =>
          match env.set_label ("Excel File: " ++ excel_file) with
          | Except.error e => ([], Except.error (e, s))
          | Except.ok _ =>
            let s1 : SelectorState := { s with label_text := "Excel File: " ++ excel_file }
            let file_path := osJoin env.sep fp excel_file
            match env.load_workbook file_path true with
            | Except.error e => ([], Except.error (e, s1))
            | Except.ok workbook =>
              match env.set_values workbook.sheetnames with
              | Except.error e => ([FileEv.opened file_path true], Except.error (e, s1))
              | Except.ok _ =>
                let s2 : SelectorState := { s1 with sheet_values := workbook.sheetnames }
                match workbook.sheetnames with
                | [] => ([FileEv.opened file_path true, FileEv.closed file_path], Except.ok s2)
                | first :: _ =>
                  match env.set_current 0 with
                  | Except.error e => ([FileEv.opened file_path true], Except.error (e, s2))
                  | Except.ok _ =>
                    ([FileEv.opened file_path true, FileEv.closed file_path],
                      Except.ok { s2 with sheet_text := first })
        | _ =>
          match env.set_label "Excel File: None (or multiple files)" with
          | Except.error e => ([], Except.error (e, s))
          | Except.ok _ =>
            let s1 : SelectorState := { s with label_text := "Excel File: None (or multiple files)" }
            match env.set_values [] with
            | Except.error e => ([], Except.error (e, s1))
            | Except.ok _ =>
              let s2 : SelectorState := { s1 with sheet_values := [] }
              match env.set_text "" with
              | Except.error e => ([], Except.error (e, s2))
              | Except.ok _ => ([], Except.ok { s2 with sheet_text := "" })

/-! Concrete fixtures used to evaluate the definitions on explicit inputs. -/

/-- The example tree of the spec: A containing B, and C, in that insertion
order. -/
def demo_children : List (String × FolderTree) :=
  [("A", FolderTree.node [("B", FolderTree.node [])]), ("C", FolderTree.node [])]

/-- A filesystem whose every directory holds one subdirectory `A` (itself
holding only a file) and one regular file. -/
def fs_demo : FileSystem :=
  ⟨fun _ => true, fun _ => [FSEntry.dir "A" [FSEntry.file "x.txt"], FSEntry.file "readme.md"]⟩

/-- An existence test that fails on every path. -/
def pe_false : String → Bool := fun _ => false

/-- One possible directory-content assignment. -/
def ea_empty : String → List FSEntry := fun _ => []

/-- A different directory-content assignment. -/
def ea_other : String → List FSEntry := fun _ => [FSEntry.dir "Z" []]

/-- A selector state pointing at the folder `/data`. -/
def st_data : SelectorState :=
  { folder_path := some "/data", label_text := "Excel File:", sheet_values := [], sheet_text := "" }

/-- A selector state whose folder path was never set, with leftover widget
contents from an earlier resolution. -/
def st_unset : SelectorState :=
  { folder_path := none, label_text := "Excel File: old.xlsx", sheet_values := ["Old"],
    sheet_text := "Old" }

/-- An environment in which every external call succeeds: `/data` lists one
qualifying workbook among decoys, and the workbook has sheets S1, S2. -/
def env_ok : SelectorEnv :=
  { sep := "/"
    listdir := fun _ =>
      Except.ok ["book.xlsx", "notes.txt", "~$book.xlsx", "REPORT.XLSX", "archive"]
    load_workbook := fun _ _ => Except.ok { sheetnames := ["S1", "S2"] }
    set_label := fun _ => Except.ok ()
    set_values := fun _ => Except.ok ()
    set_current := fun _ => Except.ok ()
    set_text := fun _ => Except.ok () }

/-- An environment in which `os.listdir` raises (for instance the folder was
deleted between selection and resolution). -/
def env_listdir_fail : SelectorEnv :=
  { env_ok with listdir := fun _ => Except.error "PermissionError: listdir" }

/-- An environment in which the folder lists one qualifying name but opening
it as a workbook raises (for instance a corrupt file). -/
def env_load_fail : SelectorEnv :=
  { env_ok with
    listdir := fun _ => Except.ok ["book.xlsx"]
    load_workbook := fun _ _ => Except.error "InvalidFileException" }

/-- An environment in which assigning the sheet combobox values raises a Tcl
error after the workbook has been opened. -/
def env_set_values_fail : SelectorEnv :=
  { env_ok with
    listdir := fun _ => Except.ok ["book.xlsx"]
    set_values := fun _ => Except.error "TclError" }

/-! Helper lemmas. -/

theorem traverse_entries_append (sep : String) (xs ys : List (String × FolderTree)) (p : String) :
    traverse_entries sep (xs ++ ys) p = traverse_entries sep xs p ++ traverse_entries sep ys p := by
  induction xs with
  | nil => simp [traverse_entries]
  | cons h t ih => cases h; simp [traverse_entries, ih]

mutual

theorem traverse_structure_length (sep : String) :
    (t : FolderTree) → (p : String) →
      (traverse_structure sep t p).length = FolderTree.total_dirs t
  | FolderTree.node entries, p => by
    rw [traverse_structure, FolderTree.total_dirs]
    exact traverse_entries_length sep entries p

theorem traverse_entries_length (sep : String) :
    (es : List (String × FolderTree)) → (p : String) →
      (traverse_entries sep es p).length = total_dirs_entries es
  | [], p => by simp [traverse_entries, total_dirs_entries]
  | (n, sub) :: rest, p => by
    rw [traverse_entries, total_dirs_entries]
    simp [traverse_structure_length sep sub, traverse_entries_length sep rest p]
    omega

end

theorem str_endswith_suffix {s t : String} (h : str_endswith s t = true) :
    t.data <:+ s.data := by
  simpa [str_endswith, List.isSuffixOf_iff_suffix] using h

theorem not_endswith_xlsx_of_endswith_XLSX {s : String}
    (h : str_endswith s ".XLSX" = true) : str_endswith s ".xlsx" = false := by
  by_contra hne
  have h2 : str_endswith s ".xlsx" = true := by
    cases hx : str_endswith s ".xlsx" with
    | false => exact absurd hx hne
    | true => rfl
  have s1 : (".XLSX" : String).data <:+ s.data := str_endswith_suffix h
  have s2 : (".xlsx" : String).data <:+ s.data := str_endswith_suffix h2
  have heq : (".XLSX" : String).data = (".xlsx" : String).data :=
    (List.suffix_of_suffix_length_le s1 s2 (by decide)).eq_of_length (by decide)
  exact absurd heq (by decide)

/-! Claim theorems. -/

/-- Claim C5: for every FolderTree the length of the flattened list equals the
total number of directories in the tree (the root itself excluded), and in
particular the empty FolderTree flattens to the empty list. -/
theorem spec_C5_flatten_length :
    (∀ (sep : String) (t : FolderTree) (parent : String),
        (traverse_structure sep t parent).length = FolderTree.total_dirs t)
    ∧ ∀ (sep parent : String), traverse_structure sep (FolderTree.node []) parent = [] := by
  constructor
  · exact fun sep t parent => traverse_structure_length sep t parent
  · intro sep parent
    simp [traverse_structure, traverse_entries]

/-- Claim C6: flattening the tree with A containing B, then C, rooted at
`/root` with separator `/`, yields exactly `/root/A`, `/root/A/B`, `/root/C`
in that order, each entry the parent path joined with the folder name. -/
theorem spec_C6_example :
    traverse_structure "/" (FolderTree.node demo_children) "/root"
      = ["/root/A", "/root/A/B", "/root/C"] := by decide

/-- Claim C10: when the stored folder path is unset or the empty string,
`check_and_display_excel_file` returns immediately with no events and the
state unchanged, so the label text and sheet list keep their previous
values. -/
theorem spec_C10_falsy_path_unchanged (env : SelectorEnv) (s : SelectorState)
    (h : s.folder_path = none ∨ s.folder_path = some "") :
    check_and_display_excel_file env s = ([], Except.ok s) := by
  rcases h with h | h <;> simp [check_and_display_excel_file, h]

/-- Witness for C10: on the never-set state, resolution leaves the leftover
label and sheet list untouched. -/
theorem spec_C10_witness :
    check_and_display_excel_file env_ok st_unset = ([], Except.ok st_unset) :=
  spec_C10_falsy_path_unchanged env_ok st_unset (Or.inl rfl)

/-- Claim C3: scanning a root path that does not exist fails with the
`ValueError` message carrying exactly that path, and the result is the same
for any directory contents whatsoever, so the failure happens before any
traversal. -/
theorem spec_C3_nonexistent_root (pe : String → Bool) (ea ea' : String → List FSEntry)
    (root_path : String) (h : pe root_path = false) :
    get_folder_structure ⟨pe, ea⟩ root_path
        = Except.error ("指定されたパスが存在しません: " ++ root_path)
    ∧ get_folder_structure ⟨pe, ea⟩ root_path = get_folder_structure ⟨pe, ea'⟩ root_path := by
  constructor <;> simp [get_folder_structure, h]

/-- Witness for C3: a concrete always-false existence test, two different
content assignments, and the path `/missing`. -/
theorem spec_C3_witness :
    pe_false "/missing" = false
    ∧ get_folder_structure ⟨pe_false, ea_empty⟩ "/missing"
        = Except.error ("指定されたパスが存在しません: " ++ "/missing")
    ∧ get_folder_structure ⟨pe_false, ea_empty⟩ "/missing"
        = get_folder_structure ⟨pe_false, ea_other⟩ "/missing" :=
  ⟨rfl, (spec_C3_nonexistent_root pe_false ea_empty ea_other "/missing" rfl).1,
    (spec_C3_nonexistent_root pe_false ea_empty ea_other "/missing" rfl).2⟩

/-- Claim C2: for an existing root, `get_folder_structure` returns the
structure built from the root's entries; at every directory, the built
mapping records exactly the entries that are directories (regular files
contribute nothing), and a directory none of whose entries is a directory is
recorded as the empty mapping. -/
theorem spec_C2_scan_records_only_dirs (fs : FileSystem) (root_path : String)
    (hex : fs.path_exists root_path = true) :
    get_folder_structure fs root_path
        = Except.ok (FolderTree.node (build_structure (fs.entries_at root_path)))
    ∧ (∀ entries : List FSEntry,
        build_structure entries = entries.filterMap (fun e =>
          match e with
          | FSEntry.dir n cs => some (n, FolderTree.node (build_structure cs))
          | FSEntry.file _ => none))
    ∧ (∀ entries : List FSEntry,
        entries.all (fun e => !FSEntry.is_dir e) = true → build_structure entries = []) := by
  refine ⟨by simp [get_folder_structure, hex], ?_, ?_⟩
  · intro entries
    induction entries with
    | nil => simp [build_structure]
    | cons e rest ih => cases e <;> simp [build_structure, ih]
  · intro entries h
    induction entries with
    | nil => simp [build_structure]
    | cons e rest ih =>
      cases e with
      | dir n cs => simp [FSEntry.is_dir] at h
      | file n =>
        simp [FSEntry.is_dir] at h
        simpa [build_structure] using ih (by simpa using h)

/-- Witness for C2: the two-entry demo filesystem; the file `readme.md` is
dropped, `A` is recorded, and `A` (holding only a file) maps to the empty
mapping. -/
theorem spec_C2_witness :
    get_folder_structure fs_demo "/root"
        = Except.ok (FolderTree.node (build_structure (fs_demo.entries_at "/root")))
    ∧ build_structure [FSEntry.dir "A" [FSEntry.file "x.txt"], FSEntry.file "readme.md"]
        = [("A", FolderTree.node [])] :=
  ⟨(spec_C2_scan_records_only_dirs fs_demo "/root" rfl).1, by
    have h := (spec_C2_scan_records_only_dirs fs_demo "/root" rfl).2.2
      [FSEntry.file "x.txt"] (by decide)
    simp [build_structure, h]⟩

/-- Claim C1: the flattened list is a depth-first pre-order.  For the entry at
any position k of the mapping, the output splits as: the flattening of the
earlier siblings, then that folder's joined path, then the whole flattening of
its subtree, then the flattening of the later siblings — so the folder's path
sits at a strictly lower index than every one of its descendants' paths, and
sibling subtrees appear in the order of their keys in the source mapping. -/
theorem spec_C1_preorder (sep parent : String) (children : List (String × FolderTree))
    (k : Nat) (h : k < children.length) :
    traverse_structure sep (FolderTree.node children) parent
        = traverse_entries sep (children.take k) parent
          ++ osJoin sep parent (children.get ⟨k, h⟩).1
            :: (traverse_structure sep (children.get ⟨k, h⟩).2
                  (osJoin sep parent (children.get ⟨k, h⟩).1)
                ++ traverse_entries sep (children.drop (k + 1)) parent)
    ∧ (traverse_structure sep (FolderTree.node children) parent)[
        (traverse_entries sep (children.take k) parent).length]?
        = some (osJoin sep parent (children.get ⟨k, h⟩).1)
    ∧ ∀ j, j < (traverse_structure sep (children.get ⟨k, h⟩).2
          (osJoin sep parent (children.get ⟨k, h⟩).1)).length →
        (traverse_structure sep (FolderTree.node children) parent)[
          (traverse_entries sep (children.take k) parent).length + 1 + j]?
          = (traverse_structure sep (children.get ⟨k, h⟩).2
              (osJoin sep parent (children.get ⟨k, h⟩).1))[j]? := by
  rcases hc : children.get ⟨k, h⟩ with ⟨name, sub⟩
  have h2 : children.drop k = children[k] :: children.drop (k + 1) :=
    List.drop_eq_getElem_cons h
  have hk : children[k] = (name, sub) := by
    rw [List.get_eq_getElem] at hc
    exact hc
  have hdecomp : traverse_structure sep (FolderTree.node children) parent
      = traverse_entries sep (children.take k) parent
        ++ osJoin sep parent name
          :: (traverse_structure sep sub (osJoin sep parent name)
              ++ traverse_entries sep (children.drop (k + 1)) parent) := by
    conv_lhs => rw [traverse_structure, ← List.take_append_drop k children, h2, hk]
    rw [traverse_entries_append, traverse_entries]
  refine ⟨hdecomp, ?_, ?_⟩
  · rw [hdecomp, List.getElem?_append_right (le_refl _)]
    simp
  · intro j hj
    rw [hdecomp, List.getElem?_append_right (by omega)]
    have hsub : (traverse_entries sep (children.take k) parent).length + 1 + j
        - (traverse_entries sep (children.take k) parent).length = j + 1 := by omega
    rw [hsub]
    simp only [List.getElem?_cons_succ]
    rw [List.getElem?_append_left hj]

/-- Witness for C1: in the demo tree, the entry at position 1 is C, its path
`/root/C` sits right after the two entries of the A subtree. -/
theorem spec_C1_witness :
    1 < demo_children.length
    ∧ (traverse_structure "/" (FolderTree.node demo_children) "/root")[
        (traverse_entries "/" (demo_children.take 1) "/root").length]? = some "/root/C" := by
  refine ⟨by decide, ?_⟩
  have h := (spec_C1_preorder "/" "/root" demo_children 1 (by decide)).2.1
  rw [h]
  decide

/-- Claim C9: a name qualifies exactly when it ends with the lowercase
`.xlsx` and does not start with the lock marker; the test is case-sensitive
(any name ending in `.XLSX` fails it) and looks at the name only, so a
directory name ending in `.xlsx`, as listed by `os.listdir`, passes it. -/
theorem spec_C9_qualifying_name :
    (∀ f : String, qualifying_excel_name f
        = (str_endswith f ".xlsx" && !(str_startswith f "~$")))
    ∧ (∀ s : String, str_endswith s ".XLSX" = true → qualifying_excel_name s = false)
    ∧ qualifying_excel_name "report.XLSX" = false
    ∧ qualifying_excel_name "~$report.xlsx" = false
    ∧ os_listdir [FSEntry.dir "sub.xlsx" [], FSEntry.file "report.txt"]
        = ["sub.xlsx", "report.txt"]
    ∧ qualifying_excel_name "sub.xlsx" = true := by
  refine ⟨fun f => rfl, ?_, by decide, by decide, by decide, by decide⟩
  intro s hs
  simp [qualifying_excel_name, not_endswith_xlsx_of_endswith_XLSX hs]

/-- Witness for C9: a concrete uppercase-extension name never qualifies. -/
theorem spec_C9_witness :
    str_endswith "Book1.XLSX" ".XLSX" = true ∧ qualifying_excel_name "Book1.XLSX" = false :=
  ⟨by decide, spec_C9_qualifying_name.2.1 "Book1.XLSX" (by decide)⟩

/-- Claim C4: when the external calls that update the widgets succeed, a
folder whose listing contains exactly one qualifying name yields a sheet list
equal to that workbook's own sheet order (and the label names the file),
while a listing with zero or several qualifying names yields the explicit no
selection state: placeholder label, empty sheet list, cleared text — not an
error. -/
theorem spec_C4_single_file_resolution (env : SelectorEnv) (s : SelectorState)
    (fp : String) (files : List String)
    (h1 : s.folder_path = some fp) (h2 : fp ≠ "")
    (h3 : env.listdir fp = Except.ok files)
    (hl : ∀ l, env.set_label l = Except.ok ())
    (hv : ∀ v, env.set_values v = Except.ok ())
    (hcur : ∀ n, env.set_current n = Except.ok ())
    (ht : ∀ t, env.set_text t = Except.ok ()) :
    (∀ f wb, files.filter qualifying_excel_name = [f] →
        env.load_workbook (osJoin env.sep fp f) true = Except.ok wb →
        ∃ s', (check_and_display_excel_file env s).2 = Except.ok s'
          ∧ s'.sheet_values = wb.sheetnames
          ∧ s'.label_text = "Excel File: " ++ f)
    ∧ ((files.filter qualifying_excel_name).length ≠ 1 →
        (check_and_display_excel_file env s).2
          = Except.ok { s with
                          label_text := "Excel File: None (or multiple files)",
                          sheet_values := [], sheet_text := "" }) := by
  constructor
  · intro f wb hf hwb
    cases hsn : wb.sheetnames with
    | nil =>
      refine ⟨{ s with label_text := "Excel File: " ++ f, sheet_values := [] }, ?_, rfl, rfl⟩
      simp [check_and_display_excel_file, h1, h2, h3, hf, hl, hv, hcur, hwb, hsn]
    | cons first rest =>
      refine ⟨{ s with
                  label_text := "Excel File: " ++ f, sheet_values := first :: rest,
                  sheet_text := first }, ?_, rfl, rfl⟩
      simp [check_and_display_excel_file, h1, h2, h3, hf, hl, hv, hcur, hwb, hsn]
  · intro hne
    cases hfl : files.filter qualifying_excel_name with
    | nil => simp [check_and_display_excel_file, h1, h2, h3, hfl, hl, hv, ht]
    | cons a tail =>
      cases tail with
      | nil => exact absurd (by rw [hfl]; rfl) hne
      | cons b t2 => simp [check_and_display_excel_file, h1, h2, h3, hfl, hl, hv, ht]

/-- Witness for C4: the all-successful environment on `/data`, whose listing
holds one qualifying workbook among a text file, a lock file, an
uppercase-extension file and an extensionless entry. -/
theorem spec_C4_witness :
    ∃ s', (check_and_display_excel_file env_ok st_data).2 = Except.ok s'
      ∧ s'.sheet_values = ["S1", "S2"] ∧ s'.label_text = "Excel File: book.xlsx" :=
  (spec_C4_single_file_resolution env_ok st_data "/data"
      ["book.xlsx", "notes.txt", "~$book.xlsx", "REPORT.XLSX", "archive"] rfl (by decide) rfl
      (fun _ => rfl) (fun _ => rfl) (fun _ => rfl) (fun _ => rfl)).1
    "book.xlsx" { sheetnames := ["S1", "S2"] } (by decide) rfl

/-- Counterexample to C7: when `os.listdir` raises, the raise propagates out
of `check_and_display_excel_file` untouched — the state is not turned into
the no-selection state, contradicting the claim that per-folder resolution
failures are absorbed locally and never propagate. -/
theorem spec_C7_counterexample :
    check_and_display_excel_file env_listdir_fail st_data
      = ([], Except.error ("PermissionError: listdir", st_data)) := rfl

/-- Claim C7 as amended: nothing in `check_and_display_excel_file` catches
exceptions; a failure while listing the folder propagates to the caller with
the state untouched, and a failure while opening the workbook propagates with
only the label already updated.  Only the zero-or-several-files outcome is
absorbed into the no-selection state. -/
theorem spec_C7_amended_propagation (env : SelectorEnv) (s : SelectorState) (fp : String)
    (h1 : s.folder_path = some fp) (h2 : fp ≠ "") :
    (∀ e, env.listdir fp = Except.error e →
        check_and_display_excel_file env s = ([], Except.error (e, s)))
    ∧ ∀ files f e, env.listdir fp = Except.ok files →
        files.filter qualifying_excel_name = [f] →
        env.set_label ("Excel File: " ++ f) = Except.ok () →
        env.load_workbook (osJoin env.sep fp f) true = Except.error e →
        check_and_display_excel_file env s
          = ([], Except.error (e, { s with label_text := "Excel File: " ++ f })) := by
  constructor
  · intro e he
    simp [check_and_display_excel_file, h1, h2, he]
  · intro files f e hfiles hf hlab hload
    simp [check_and_display_excel_file, h1, h2, hfiles, hf, hlab, hload]

/-- Witness for C7 (amended): a failing workbook open propagates, carrying
the already-updated label. -/
theorem spec_C7_witness :
    check_and_display_excel_file env_load_fail st_data
      = ([], Except.error ("InvalidFileException",
          { st_data with label_text := "Excel File: book.xlsx" })) :=
  (spec_C7_amended_propagation env_load_fail st_data "/data" rfl (by decide)).2
    ["book.xlsx"] "book.xlsx" "InvalidFileException" rfl (by decide) rfl rfl

/-- Counterexample to C8: when assigning the combobox values raises after the
workbook has been opened, the trace holds the read-only open but no close —
the handle is not released on this failing path, contradicting the claim of
guaranteed release on every execution path. -/
theorem spec_C8_counterexample :
    (check_and_display_excel_file env_set_values_fail st_data).1
        = [FileEv.opened "/data/book.xlsx" true]
    ∧ FileEv.closed "/data/book.xlsx"
        ∉ (check_and_display_excel_file env_set_values_fail st_data).1
    ∧ (check_and_display_excel_file env_set_values_fail st_data).2
        = Except.error ("TclError", { st_data with label_text := "Excel File: book.xlsx" }) := by
  refine ⟨rfl, ?_, rfl⟩
  decide

/-- Claim C8 as amended: on every run of `check_and_display_excel_file` that
returns normally, either no workbook was opened, or exactly one was opened in
read-only mode and closed before returning; the release is guaranteed on the
non-raising paths only. -/
theorem spec_C8_amended_release_on_success (env : SelectorEnv) (s : SelectorState)
    (evs : List FileEv) (s' : SelectorState)
    (h : check_and_display_excel_file env s = (evs, Except.ok s')) :
    evs = [] ∨ ∃ p, evs = [FileEv.opened p true, FileEv.closed p] := by
  simp only [check_and_display_excel_file] at h
  repeat' split at h
  all_goals simp only [Prod.mk.injEq] at h
  all_goals first
    | exact Or.inl h.1.symm
    | exact Or.inr ⟨_, h.1.symm⟩
    | simp_all

/-- Witness for C8 (amended): the successful run on `/data` opens the single
workbook read-only and closes it before returning. -/
theorem spec_C8_witness :
    ([FileEv.opened "/data/book.xlsx" true, FileEv.closed "/data/book.xlsx"] : List FileEv) = []
    ∨ ∃ p, [FileEv.opened "/data/book.xlsx" true, FileEv.closed "/data/book.xlsx"]
        = [FileEv.opened p true, FileEv.closed p] :=
  spec_C8_amended_release_on_success env_ok st_data
    [FileEv.opened "/data/book.xlsx" true, FileEv.closed "/data/book.xlsx"]
    { st_data with
        label_text := "Excel File: book.xlsx", sheet_values := ["S1", "S2"],
        sheet_text := "S1" } rfl
